import Mathlib

/-!
Shallow embedding of `function_app.py` and `key_vault.py`: a single
HTTP-triggered pipeline that reads configuration from the process
environment, resolves an API key from a secret store, fetches a JSON
payload from a remote endpoint and writes it to blob storage.

External services (environment, secret store, remote API, blob store) are
modelled as oracles carried in a `World` record; the handler is a total
function of the world, returning the HTTP response together with the list
of outbound effects it performed.
-/

namespace FunctionApp

/-- Python exception values that the embedded code can raise or catch.
`keyError k` models `KeyError(k)` from `os.environ[k]`; `exc m` models any
other `Exception` with message `m` (as produced by `str(e)`). -/
inductive PyError where
  | keyError (key : String)
  | exc (msg : String)
deriving DecidableEq, Repr

/-- Python `str(e)` on an exception: `str(KeyError('API_URL'))` renders the
argument with quotes, `"'API_URL'"`; a generic exception renders its
message. -/
def pyStr : PyError → String
  | .keyError k => "'" ++ k ++ "'"
  | .exc m => m

/-- An `httpx.HTTPError` (transport error, timeout, or the non-2xx error
raised by `response.raise_for_status()`). `httpx`'s request API reports
request failures through this class, which is exactly what the fetch stage
of the handler catches. -/
structure HttpErr where
  msg : String
deriving DecidableEq, Repr

/-- Python f-string interpolation of a `str | None` value: `None` renders
as the four characters `"None"`. -/
def pyStrOfOpt : Option String → String
  | some s => s
  | none => "None"

/-- Python `s.rstrip('/')`: remove every trailing `'/'` character. -/
def pyRstripSlash (s : String) : String :=
  String.mk ((s.data.reverse.dropWhile (fun c => c == '/')).reverse)

/-- The process environment: a partial map from variable names to values.
`os.environ[k]` raises `KeyError(k)` when `env k = none`; `os.getenv`
returns the default instead. -/
def Env : Type := String → Option String

/-- `os.environ[k]`: the value, or a raised `KeyError`. -/
def osEnviron (env : Env) (k : String) : Except PyError String :=
  match env k with
  | some v => .ok v
  | none => .error (.keyError k)

/-- A UTC wall-clock instant as `datetime.now(timezone.utc)` exposes it to
`strftime`. -/
structure DateTimeUTC where
  year : Nat
  month : Nat
  day : Nat
  hour : Nat
  minute : Nat
  second : Nat
deriving DecidableEq, Repr

/-- Zero-pad a numeral to two digits, as `strftime`'s `%m`/`%d`/`%H`/`%M`/`%S` do. -/
def pad2 (n : Nat) : String :=
  if n < 10 then "0" ++ toString n else toString n

/-- Zero-pad a numeral to four digits, as `strftime`'s `%Y` does. -/
def pad4 (n : Nat) : String :=
  if n < 10 then "000" ++ toString n
  else if n < 100 then "00" ++ toString n
  else if n < 1000 then "0" ++ toString n
  else toString n

/-- `t.strftime("%Y%m%dT%H%M%SZ")`. -/
def strftimeTs (t : DateTimeUTC) : String :=
  pad4 t.year ++ pad2 t.month ++ pad2 t.day ++ "T" ++
    pad2 t.hour ++ pad2 t.minute ++ pad2 t.second ++ "Z"

/-! ## `key_vault.py`

Python object identity is modelled by allocation ids (`ObjId`): each run of
a constructor allocates a fresh id, so two calls return the *identical*
instance exactly when they return the same id. The `functools.cache`
decorators on `get_credential` and `get_secret_client` become explicit
cache fields in `KVState`, threaded through every call; the state also
counts constructor runs so that memoization claims can be stated. -/

/-- Identity of a Python object (allocation id). -/
abbrev ObjId := Nat

/-- The module-level mutable state of `key_vault.py`: the two
`functools.cache` caches, an allocation counter for object identity, and
counters of how many times each underlying constructor ran. -/
structure KVState where
  nextId : Nat
  credentialCache : Option ObjId
  secretClientCache : Option ObjId
  credentialCtorRuns : Nat
  secretClientCtorRuns : Nat
deriving DecidableEq, Repr

/-- The state at process start: both caches empty, no constructor has run. -/
def freshKV : KVState :=
  { nextId := 0, credentialCache := none, secretClientCache := none,
    credentialCtorRuns := 0, secretClientCtorRuns := 0 }

/-- `get_credential()`: `functools.cache` over
`DefaultAzureCredential(...)`. On a cache miss the constructor runs
(allocating a fresh instance and bumping the run counter) and the result is
cached; on a hit the cached instance is returned and the state is
unchanged. -/
def get_credential (s : KVState) : ObjId × KVState :=
  match s.credentialCache with
  | some c => (c, s)
  | none =>
      (s.nextId,
       { s with nextId := s.nextId + 1,
                credentialCache := some s.nextId,
                credentialCtorRuns := s.credentialCtorRuns + 1 })

/-- `n` successive calls of `get_credential()`, collecting the returned
instances. -/
def credCalls : Nat → KVState → List ObjId × KVState
  | 0, s => ([], s)
  | n + 1, s =>
      let (v, s1) := get_credential s
      let (vs, s2) := credCalls n s1
      (v :: vs, s2)

/-- `get_secret_client()`: `functools.cache` over a body that reads the
required `KEY_VAULT_URL` environment variable (raising `KeyError` when it
is absent — `functools.cache` does not cache a raised exception) and
constructs a `SecretClient` from it and `get_credential()`. -/
def get_secret_client (env : Env) (s : KVState) :
    Except PyError ObjId × KVState :=
  match s.secretClientCache with
  | some c => (.ok c, s)
  | none =>
      match env "KEY_VAULT_URL" with
      | none => (.error (.keyError "KEY_VAULT_URL"), s)
      | some _ =>
          let (_, s1) := get_credential s
          (.ok s1.nextId,
           { s1 with nextId := s1.nextId + 1,
                     secretClientCache := some s1.nextId,
                     secretClientCtorRuns := s1.secretClientCtorRuns + 1 })

/-- The behaviour of the secret store: for each secret name, either the
secret's value or the exception the lookup raises (not found, network
error, permission error, ...). -/
def Vault : Type := String → Except PyError String

/-- The `try`-block of `get_secret`: obtain the (cached) client, request
the named secret, return its value. Every failure is a raised exception. -/
def get_secret_try (env : Env) (vault : Vault) (s : KVState)
    (name : String) : Except PyError String × KVState :=
  match get_secret_client env s with
  | (.error e, s1) => (.error e, s1)
  | (.ok _, s1) =>
      match vault name with
      | .ok v => (.ok v, s1)
      | .error e => (.error e, s1)

/-- `get_secret(secret_name)`: the `try`-block above with a blanket
`except Exception` that logs and returns `None`. -/
def get_secret (env : Env) (vault : Vault) (s : KVState)
    (name : String) : Option String × KVState :=
  match get_secret_try env vault s name with
  | (.ok v, s1) => (some v, s1)
  | (.error _, s1) => (none, s1)

/-- A constructed `BlobServiceClient`: the endpoint URL it is bound to and
the credential instance it was given. -/
structure BlobServiceClient where
  account_url : String
  credential : ObjId
deriving DecidableEq, Repr

/-- `get_blob_service_client()`: reads the required `STORAGE_ACCOUNT_NAME`
environment variable (raising `KeyError` when absent), derives the
account's blob endpoint URL and constructs a client from it and
`get_credential()`. Not memoized. -/
def get_blob_service_client (env : Env) (s : KVState) :
    Except PyError BlobServiceClient × KVState :=
  match env "STORAGE_ACCOUNT_NAME" with
  | none => (.error (.keyError "STORAGE_ACCOUNT_NAME"), s)
  | some name =>
      let (cred, s1) := get_credential s
      (.ok { account_url := "https://" ++ name ++ ".blob.core.windows.net",
             credential := cred }, s1)

/-! ## `function_app.py`

The handler's outbound side effects are collected into a trace, so that
claims of the form "no storage write is attempted" are statements about
the trace. A `client.get(url)` records an `httpGet url` effect whether or
not the request then fails; an `upload_blob` call records a `blobWrite`
effect whether or not the upload then fails. -/

/-- An outbound effect performed by the handler. -/
inductive Effect where
  | httpGet (url : String)
  | blobWrite (accountUrl : String) (container : String)
      (blobName : String) (data : String)
deriving DecidableEq, Repr

/-- `func.HttpResponse(body, status_code=...)`. -/
structure HttpResponse where
  body : String
  status_code : Nat
deriving DecidableEq, Repr

/-- The world the handler runs in: the process environment, the state and
behaviour of the external services, and the wall clock. `fetch url` is the
outcome of `client.get(url)` followed by `raise_for_status()` and `.text`:
on success the response body, on failure the `httpx.HTTPError` raised
(`httpx`'s request API reports transport and HTTP-status failures through
this class, which is what the handler catches). `upload container blobName
data` is the outcome of `blob_client.upload_blob(...)` on the named blob:
`()` or any raised exception. `now` is `datetime.now(timezone.utc)` at the
moment the timestamp is taken. -/
structure World where
  env : Env
  vault : Vault
  kv : KVState
  fetch : String → Except HttpErr String
  upload : String → String → String → Except PyError Unit
  now : DateTimeUTC

/-- The configuration `try`-block: `os.environ["API_URL"] + "/flights"`,
then `os.environ["ADLS_FILE_SYSTEM"]`, then
`os.getenv("ADLS_PATH_PREFIX", "flights")`. The first missing required
variable raises `KeyError`. -/
def loadConfig (env : Env) : Except PyError (String × String × String) :=
  match env "API_URL" with
  | none => .error (.keyError "API_URL")
  | some apiUrl =>
      match env "ADLS_FILE_SYSTEM" with
      | none => .error (.keyError "ADLS_FILE_SYSTEM")
      | some containerName =>
          .ok (apiUrl ++ "/flights", containerName,
               (env "ADLS_PATH_PREFIX").getD "flights")

/-- The storage `try`-block of the handler, entered after a successful
fetch: construct the blob service client, obtain the container client,
compute the timestamped blob name, obtain the blob client and upload the
payload. Returns the success body or the raised exception, together with
the effects performed and the resulting `key_vault` state. -/
def saveToStorage (w : World) (kv : KVState) (containerName : String)
    (pathPfx : String) (data : String) :
    Except PyError String × List Effect × KVState :=
  match get_blob_service_client w.env kv with
  | (.error e, kv1) => (.error e, [], kv1)
  | (.ok bsc, kv1) =>
      let timestamp := strftimeTs w.now
      let blob_name := pyRstripSlash pathPfx ++ "/" ++ timestamp ++ ".json"
      match w.upload containerName blob_name data with
      | .error e =>
          (.error e,
           [.blobWrite bsc.account_url containerName blob_name data], kv1)
      | .ok _ =>
          (.ok ("Data saved successfully to " ++ containerName ++ "/" ++
                blob_name),
           [.blobWrite bsc.account_url containerName blob_name data], kv1)

/-- `http_trigger(req)`: the request-fetch-store pipeline. The inbound
request carries no data the handler reads, so it is not a parameter.
Returns the HTTP response and the trace of outbound effects. -/
def http_trigger (w : World) : HttpResponse × List Effect :=
  match loadConfig w.env with
  | .error e =>
      ({ body := "Configuration error: Missing " ++ pyStr e,
         status_code := 500 }, [])
  | .ok (endpointUrl, containerName, pathPfx) =>
      let (api_key, kv1) := get_secret w.env w.vault w.kv "api-key"
      let url := endpointUrl ++ "?key=" ++ pyStrOfOpt api_key
      match w.fetch url with
      | .error _ =>
          ({ body := "Failed to fetch data from endpoint",
             status_code := 502 }, [.httpGet url])
      | .ok data =>
          match saveToStorage w kv1 containerName pathPfx data with
          | (.error e, effs, _) =>
              ({ body := "Failed to save data to storage: " ++ pyStr e,
                 status_code := 500 }, .httpGet url :: effs)
          | (.ok okBody, effs, _) =>
              ({ body := okBody, status_code := 200 }, .httpGet url :: effs)

/-! ## Concrete fixtures

Closed environments, service behaviours and worlds used to instantiate the
theorems below. `envScenario` is the spec's concrete scenario environment,
extended with the two variables the secret and storage stages read. -/

/-- The empty process environment. -/
def envEmpty : Env := fun _ => none

/-- The concrete-scenario environment. -/
def envScenario : Env := fun k =>
  if k = "API_URL" then some "https://api.example.com"
  else if k = "ADLS_FILE_SYSTEM" then some "test-container"
  else if k = "KEY_VAULT_URL" then some "https://test-vault.vault.azure.net/"
  else if k = "STORAGE_ACCOUNT_NAME" then some "teststorage"
  else none

/-- An environment with only `API_URL` set. -/
def envOnlyApi : Env := fun k =>
  if k = "API_URL" then some "https://api.example.com" else none

/-- The scenario environment with `ADLS_PATH_PREFIX` set to a value ending
in a slash. -/
def envPfxSlash : Env := fun k =>
  if k = "ADLS_PATH_PREFIX" then some "flights/" else envScenario k

/-- A secret store holding the test API key under every name. -/
def vaultScenario : Vault := fun _ => .ok "test-api-key"

/-- A secret store whose every lookup raises. -/
def vaultDown : Vault := fun _ => .error (.exc "Generic error")

/-- The scenario clock: 2023-11-10T12:00:00Z. -/
def clockScenario : DateTimeUTC :=
  { year := 2023, month := 11, day := 10, hour := 12, minute := 0, second := 0 }

/-- The scenario payload returned by the remote API. -/
def payloadScenario : String := "\x7b\"flights\": []\x7d"

/-- A remote API that returns the scenario payload for every URL. -/
def fetchScenario : String → Except HttpErr String := fun _ => .ok payloadScenario

/-- A remote API whose every request raises an `httpx.HTTPError`. -/
def fetchDown : String → Except HttpErr String :=
  fun _ => .error { msg := "Connection failed" }

/-- A blob store on which every upload succeeds. -/
def uploadOk : String → String → String → Except PyError Unit :=
  fun _ _ _ => .ok ()

/-- A blob store on which every upload raises. -/
def uploadDown : String → String → String → Except PyError Unit :=
  fun _ _ _ => .error (.exc "Storage error")

/-- The concrete-scenario world: all services healthy, fresh process. -/
def worldScenario : World :=
  { env := envScenario, vault := vaultScenario, kv := freshKV,
    fetch := fetchScenario, upload := uploadOk, now := clockScenario }

/-- The scenario world with an empty environment. -/
def worldEmpty : World := { worldScenario with env := envEmpty }

/-- The scenario world with only `API_URL` set. -/
def worldOnlyApi : World := { worldScenario with env := envOnlyApi }

/-- The scenario world with a trailing-slash `ADLS_PATH_PREFIX`. -/
def worldPfxSlash : World := { worldScenario with env := envPfxSlash }

/-- The scenario world with the remote API down. -/
def worldFetchDown : World := { worldScenario with fetch := fetchDown }

/-- The scenario world with the blob store refusing uploads. -/
def worldUploadDown : World := { worldScenario with upload := uploadDown }

/-- The scenario world with the secret store down, so that secret
resolution yields an absent value. -/
def worldNoSecret : World := { worldScenario with vault := vaultDown }

example : http_trigger worldScenario =
    ({ body :=
         "Data saved successfully to test-container/flights/20231110T120000Z.json",
       status_code := 200 },
     [.httpGet "https://api.example.com/flights?key=test-api-key",
      .blobWrite "https://teststorage.blob.core.windows.net" "test-container"
        "flights/20231110T120000Z.json" payloadScenario]) := rfl

example : (http_trigger worldNoSecret).2.head? =
    some (.httpGet "https://api.example.com/flights?key=None") := rfl

example : (http_trigger worldPfxSlash).2 =
    [.httpGet "https://api.example.com/flights?key=test-api-key",
     .blobWrite "https://teststorage.blob.core.windows.net" "test-container"
       "flights/20231110T120000Z.json" payloadScenario] := rfl

/-! ## Theorems -/

/-- A list whose first remaining element was kept by `dropWhile p`
does not satisfy `p`. -/
theorem head?_dropWhile_not (p : Char → Bool) (l : List Char) (c : Char)
    (h : (l.dropWhile p).head? = some c) : p c = false := by
  induction l with
  | nil => simp [List.dropWhile] at h
  | cons x xs ih =>
      by_cases hx : p x
      · rw [List.dropWhile_cons_of_pos hx] at h
        exact ih h
      · rw [List.dropWhile_cons_of_neg hx] at h
        simp only [List.head?_cons, Option.some.injEq] at h
        subst h
        exact Bool.eq_false_iff.mpr hx

/-- Claim C8: `get_credential` is idempotently memoized: starting from the
process-start state, any sequence of `n + 1` calls returns the identical
instance (allocation id 0) every time, and the underlying
`DefaultAzureCredential` constructor has run exactly once. -/
theorem get_credential_memoized (n : Nat) :
    (credCalls (n + 1) freshKV).1 = List.replicate (n + 1) 0 ∧
    (credCalls (n + 1) freshKV).2.credentialCtorRuns = 1 := by
  have hcached : ∀ (m : Nat) (s : KVState) (c : ObjId),
      s.credentialCache = some c → credCalls m s = (List.replicate m c, s) := by
    intro m
    induction m with
    | zero => intro s c _; simp [credCalls]
    | succ k ih =>
        intro s c h
        simp [credCalls, get_credential, h, ih s c h, List.replicate]
  have h2 := hcached n
    { nextId := 1, credentialCache := some 0, secretClientCache := none,
      credentialCtorRuns := 1, secretClientCtorRuns := 0 } 0 rfl
  have h1 : credCalls (n + 1) freshKV =
      (0 :: List.replicate n 0,
       { nextId := 1, credentialCache := some 0, secretClientCache := none,
         credentialCtorRuns := 1, secretClientCtorRuns := 0 }) := by
    simp [credCalls, get_credential, freshKV, h2]
  rw [h1]
  exact ⟨rfl, rfl⟩

/-- Claim C3: `get_secret` recovers every failure into an absent value. In
the embedding an exception cannot escape `get_secret` at all — its result
type is `Option String × KVState` and the theorem covers every outcome of
the `try`-block: when the cached-client construction succeeds and the
store returns the secret, the secret's value is returned; when the client
construction raises (for any reason, including a missing `KEY_VAULT_URL`),
or the store lookup raises, the result is `none`. -/
theorem get_secret_blanket_recovery (env : Env) (vault : Vault)
    (s : KVState) (name : String) :
    (∀ c s1 v, get_secret_client env s = (.ok c, s1) → vault name = .ok v →
        (get_secret env vault s name).1 = some v) ∧
    (∀ e s1, get_secret_client env s = (.error e, s1) →
        (get_secret env vault s name).1 = none) ∧
    (∀ e, vault name = .error e → (get_secret env vault s name).1 = none) := by
  refine ⟨?_, ?_, ?_⟩
  · intro c s1 v hc hv
    simp [get_secret, get_secret_try, hc, hv]
  · intro e s1 hc
    simp [get_secret, get_secret_try, hc]
  · intro e hv
    rcases hc : get_secret_client env s with ⟨r, s1⟩
    cases r with
    | ok c => simp [get_secret, get_secret_try, hc, hv]
    | error e2 => simp [get_secret, get_secret_try, hc]

/-- Witness for C3: in the scenario world the secret's value comes back;
with the vault configuration missing, and with the store raising, the
result is absent. -/
theorem get_secret_blanket_recovery_witness :
    (get_secret envScenario vaultScenario freshKV "api-key").1 =
      some "test-api-key" ∧
    (get_secret envEmpty vaultScenario freshKV "api-key").1 = none ∧
    (get_secret envScenario vaultDown freshKV "api-key").1 = none :=
  ⟨(get_secret_blanket_recovery envScenario vaultScenario freshKV
      "api-key").1 1
      { nextId := 2, credentialCache := some 0, secretClientCache := some 1,
        credentialCtorRuns := 1, secretClientCtorRuns := 1 }
      "test-api-key" rfl rfl,
   (get_secret_blanket_recovery envEmpty vaultScenario freshKV
      "api-key").2.1 (.keyError "KEY_VAULT_URL") freshKV rfl,
   (get_secret_blanket_recovery envScenario vaultDown freshKV
      "api-key").2.2 (.exc "Generic error") rfl⟩

/-- Counterexample to claim C4 as stated: with `KEY_VAULT_URL` unset and a
fresh process, the lazy client construction does raise
`KeyError('KEY_VAULT_URL')` — but when `get_secret` is the caller that
triggered it, the error does **not** propagate to `get_secret`'s caller:
`get_secret` returns normally with an absent value and an unchanged state.
(In the embedding, propagation out of `get_secret` is impossible by its
very type; this run exhibits the failure being swallowed.) -/
theorem get_secret_client_err_swallowed_cex :
    (get_secret_client envEmpty freshKV).1 =
      .error (.keyError "KEY_VAULT_URL") ∧
    get_secret envEmpty vaultScenario freshKV "api-key" = (none, freshKV) :=
  ⟨rfl, rfl⟩

/-- Claim C4 (amended): when `KEY_VAULT_URL` is missing and no client is
cached yet, `get_secret_client` itself fails loudly — it raises
`KeyError('KEY_VAULT_URL')` to its caller — but when the construction is
triggered through `get_secret`, the blanket handler there catches the
error and returns an absent value instead of propagating it. -/
theorem get_secret_client_missing_url (env : Env) (s : KVState)
    (hc : s.secretClientCache = none) (he : env "KEY_VAULT_URL" = none) :
    (get_secret_client env s).1 = .error (.keyError "KEY_VAULT_URL") ∧
    ∀ (vault : Vault) (name : String),
      (get_secret env vault s name).1 = none := by
  constructor
  · simp [get_secret_client, hc, he]
  · intro vault name
    simp [get_secret, get_secret_try, get_secret_client, hc, he]

/-- Witness for C4 (amended) at the empty environment and fresh state. -/
theorem get_secret_client_missing_url_witness :
    (get_secret_client envEmpty freshKV).1 =
      .error (.keyError "KEY_VAULT_URL") ∧
    (get_secret envEmpty vaultScenario freshKV "api-key").1 = none :=
  ⟨(get_secret_client_missing_url envEmpty freshKV rfl rfl).1,
   (get_secret_client_missing_url envEmpty freshKV rfl rfl).2
     vaultScenario "api-key"⟩

/-- Claim C5: when a required configuration key is absent, the handler
returns 500 with a body naming that key (as Python renders the `KeyError`,
with quotes), and performs zero outbound effects — no GET and no blob
write. `API_URL` is read first, so it wins when both are missing. -/
theorem config_missing_500_no_effects (w : World) :
    (w.env "API_URL" = none →
      http_trigger w =
        ({ body := "Configuration error: Missing 'API_URL'",
           status_code := 500 }, [])) ∧
    (∀ u, w.env "API_URL" = some u → w.env "ADLS_FILE_SYSTEM" = none →
      http_trigger w =
        ({ body := "Configuration error: Missing 'ADLS_FILE_SYSTEM'",
           status_code := 500 }, [])) := by
  constructor
  · intro h
    simp [http_trigger, loadConfig, h, pyStr]
  · intro u h1 h2
    simp [http_trigger, loadConfig, h1, h2, pyStr]

/-- Witness for C5: the empty environment is missing `API_URL`; the
environment with only `API_URL` is missing `ADLS_FILE_SYSTEM`. -/
theorem config_missing_500_no_effects_witness :
    http_trigger worldEmpty =
      ({ body := "Configuration error: Missing 'API_URL'",
         status_code := 500 }, []) ∧
    http_trigger worldOnlyApi =
      ({ body := "Configuration error: Missing 'ADLS_FILE_SYSTEM'",
         status_code := 500 }, []) :=
  ⟨(config_missing_500_no_effects worldEmpty).1 rfl,
   (config_missing_500_no_effects worldOnlyApi).2
     "https://api.example.com" rfl rfl⟩

/-- Claim C6: when configuration loads but the outbound GET raises an
`httpx.HTTPError` (transport failure or the non-2xx error from
`raise_for_status`), the handler returns 502 with body
"Failed to fetch data from endpoint", and the trace holds the GET alone —
no blob write is attempted. -/
theorem fetch_error_502 (w : World) (apiUrl containerName : String)
    (e : HttpErr)
    (h1 : w.env "API_URL" = some apiUrl)
    (h2 : w.env "ADLS_FILE_SYSTEM" = some containerName)
    (hf : w.fetch (apiUrl ++ "/flights" ++ "?key=" ++
        pyStrOfOpt (get_secret w.env w.vault w.kv "api-key").1) =
      .error e) :
    http_trigger w =
      ({ body := "Failed to fetch data from endpoint", status_code := 502 },
       [.httpGet (apiUrl ++ "/flights" ++ "?key=" ++
          pyStrOfOpt (get_secret w.env w.vault w.kv "api-key").1)]) := by
  rcases hgs : get_secret w.env w.vault w.kv "api-key" with ⟨akey, kv1⟩
  rw [hgs] at hf
  simp [http_trigger, loadConfig, h1, h2, hgs, hf]

/-- Witness for C6: the scenario world with the remote API down. -/
theorem fetch_error_502_witness :
    http_trigger worldFetchDown =
      ({ body := "Failed to fetch data from endpoint", status_code := 502 },
       [.httpGet "https://api.example.com/flights?key=test-api-key"]) :=
  fetch_error_502 worldFetchDown "https://api.example.com" "test-container"
    { msg := "Connection failed" } rfl rfl rfl

/-- Claim C9: the handler is total — in the embedding every outcome of the
environment, the secret store, the remote API (which reports failures as
`httpx.HTTPError`) and the blob store is an oracle value, and
`http_trigger` is a total function of the world — and its response status
code is always 200, 500 or 502. -/
theorem http_trigger_status_total (w : World) :
    (http_trigger w).1.status_code = 200 ∨
    (http_trigger w).1.status_code = 500 ∨
    (http_trigger w).1.status_code = 502 := by
  unfold http_trigger
  rcases loadConfig w.env with e | ⟨endpointUrl, containerName, pathPfx⟩
  · simp
  · rcases hgs : get_secret w.env w.vault w.kv "api-key" with ⟨akey, kv1⟩
    simp only [hgs]
    rcases w.fetch (endpointUrl ++ "?key=" ++ pyStrOfOpt akey) with e | data
    · simp
    · rcases hsv : saveToStorage w kv1 containerName pathPfx data with
        ⟨r, effs, kv2⟩
      rcases r with e | okBody <;> simp [hsv]

/-- Claim C7: when the fetch succeeds but the storage stage raises — the
blob service client construction (for instance a missing
`STORAGE_ACCOUNT_NAME`) or the upload itself — the handler returns 500 and
its body is exactly "Failed to save data to storage: " followed by the
underlying error's text, so the body contains both the phrase and the
error text. -/
theorem storage_error_500 (w : World) (apiUrl containerName data : String)
    (e : PyError)
    (h1 : w.env "API_URL" = some apiUrl)
    (h2 : w.env "ADLS_FILE_SYSTEM" = some containerName)
    (hf : w.fetch (apiUrl ++ "/flights" ++ "?key=" ++
        pyStrOfOpt (get_secret w.env w.vault w.kv "api-key").1) = .ok data)
    (hs : (saveToStorage w (get_secret w.env w.vault w.kv "api-key").2
        containerName ((w.env "ADLS_PATH_PREFIX").getD "flights") data).1 =
      .error e) :
    (http_trigger w).1 =
      { body := "Failed to save data to storage: " ++ pyStr e,
        status_code := 500 } := by
  rcases hgs : get_secret w.env w.vault w.kv "api-key" with ⟨akey, kv1⟩
  rw [hgs] at hf hs
  rcases hsv : saveToStorage w kv1 containerName
      ((w.env "ADLS_PATH_PREFIX").getD "flights") data with ⟨r, effs, kv2⟩
  rw [hsv] at hs
  simp only at hs
  subst hs
  simp [http_trigger, loadConfig, h1, h2, hgs, hf, hsv]

/-- Witness for C7: the scenario world whose blob store raises
"Storage error" on every upload. -/
theorem storage_error_500_witness :
    (http_trigger worldUploadDown).1 =
      { body := "Failed to save data to storage: Storage error",
        status_code := 500 } :=
  storage_error_500 worldUploadDown "https://api.example.com"
    "test-container" payloadScenario (.exc "Storage error") rfl rfl rfl rfl

/-- Counterexample to claim C1 as stated: with `ADLS_PATH_PREFIX` set to
"flights/" (a value ending in '/') and every stage succeeding, the blob
name written is "flights/20231110T120000Z.json" — the code strips the
trailing slash first — and not the claim's
`prefix ++ "/" ++ timestamp ++ ".json"`, which here would be
"flights//20231110T120000Z.json". -/
theorem http_trigger_success_blobname_cex :
    http_trigger worldPfxSlash =
      ({ body :=
           "Data saved successfully to test-container/flights/20231110T120000Z.json",
         status_code := 200 },
       [.httpGet "https://api.example.com/flights?key=test-api-key",
        .blobWrite "https://teststorage.blob.core.windows.net"
          "test-container" "flights/20231110T120000Z.json"
          payloadScenario]) ∧
    ("flights/20231110T120000Z.json" : String) ≠
      "flights/" ++ "/" ++ strftimeTs clockScenario ++ ".json" :=
  ⟨rfl, by decide⟩

/-- Claim C1 (amended): for every environment with `API_URL` and
`ADLS_FILE_SYSTEM` set, whenever the fetch and the storage write succeed,
the handler returns 200 and the blob name written equals
`prefix-with-trailing-slashes-stripped ++ "/" ++ timestamp ++ ".json"`,
where the timestamp is the current UTC time rendered as YYYYMMDDTHHMMSSZ
and the prefix is `ADLS_PATH_PREFIX`, defaulting to "flights" when unset
(the stripping only matters when the prefix ends in '/'). -/
theorem http_trigger_success (w : World)
    (apiUrl containerName acct data : String)
    (h1 : w.env "API_URL" = some apiUrl)
    (h2 : w.env "ADLS_FILE_SYSTEM" = some containerName)
    (hacct : w.env "STORAGE_ACCOUNT_NAME" = some acct)
    (hf : w.fetch (apiUrl ++ "/flights" ++ "?key=" ++
        pyStrOfOpt (get_secret w.env w.vault w.kv "api-key").1) = .ok data)
    (hu : w.upload containerName
        (pyRstripSlash ((w.env "ADLS_PATH_PREFIX").getD "flights") ++ "/" ++
          strftimeTs w.now ++ ".json") data = .ok ()) :
    http_trigger w =
      ({ body := "Data saved successfully to " ++ containerName ++ "/" ++
           (pyRstripSlash ((w.env "ADLS_PATH_PREFIX").getD "flights") ++
             "/" ++ strftimeTs w.now ++ ".json"),
         status_code := 200 },
       [.httpGet (apiUrl ++ "/flights" ++ "?key=" ++
          pyStrOfOpt (get_secret w.env w.vault w.kv "api-key").1),
        .blobWrite ("https://" ++ acct ++ ".blob.core.windows.net")
          containerName
          (pyRstripSlash ((w.env "ADLS_PATH_PREFIX").getD "flights") ++
            "/" ++ strftimeTs w.now ++ ".json") data]) := by
  rcases hgs : get_secret w.env w.vault w.kv "api-key" with ⟨akey, kv1⟩
  rw [hgs] at hf
  rcases hgc : get_credential kv1 with ⟨cred, kvc⟩
  simp [http_trigger, loadConfig, saveToStorage, get_blob_service_client,
    h1, h2, hacct, hgs, hf, hgc, hu]

/-- Witness for C1 (amended): the spec's concrete scenario (clock
2023-11-10T12:00:00Z, secret "test-api-key", prefix unset and so
defaulting to "flights"). -/
theorem http_trigger_success_witness :
    http_trigger worldScenario =
      ({ body :=
           "Data saved successfully to test-container/flights/20231110T120000Z.json",
         status_code := 200 },
       [.httpGet "https://api.example.com/flights?key=test-api-key",
        .blobWrite "https://teststorage.blob.core.windows.net"
          "test-container" "flights/20231110T120000Z.json"
          payloadScenario]) :=
  http_trigger_success worldScenario "https://api.example.com"
    "test-container" "teststorage" payloadScenario rfl rfl rfl rfl rfl

/-- Counterexample to claim C2 as stated: when the secret store is down,
the one outbound GET the handler issues goes to
".../flights?key=None" — Python's rendering of the absent value — and no
GET to the claim's ".../flights?key=" (empty value after the equals sign)
is ever issued. -/
theorem secret_absent_url_cex :
    (http_trigger worldNoSecret).2.head? =
      some (.httpGet "https://api.example.com/flights?key=None") ∧
    Effect.httpGet "https://api.example.com/flights?key=" ∉
      (http_trigger worldNoSecret).2 :=
  ⟨rfl, by decide⟩

/-- Claim C2 (amended): when secret resolution yields an absent value, the
pipeline does not fail fast — it interpolates the absent value into the
query string as Python renders it, the four characters "None", and issues
the outbound GET to `API_URL ++ "/flights?key=None"`. -/
theorem secret_absent_url_none (w : World) (apiUrl containerName : String)
    (h1 : w.env "API_URL" = some apiUrl)
    (h2 : w.env "ADLS_FILE_SYSTEM" = some containerName)
    (hsec : (get_secret w.env w.vault w.kv "api-key").1 = none) :
    (http_trigger w).2.head? =
      some (.httpGet (apiUrl ++ "/flights?key=None")) := by
  rcases hgs : get_secret w.env w.vault w.kv "api-key" with ⟨akey, kv1⟩
  rw [hgs] at hsec
  simp only at hsec
  subst hsec
  have hurl : apiUrl ++ "/flights" ++ "?key=" ++ pyStrOfOpt none =
      apiUrl ++ "/flights?key=None" := by
    rw [String.append_assoc, String.append_assoc]
    rfl
  have hhead : (http_trigger w).2.head? =
      some (.httpGet (apiUrl ++ "/flights" ++ "?key=" ++
        pyStrOfOpt none)) := by
    rcases hfe : w.fetch (apiUrl ++ "/flights" ++ "?key=" ++
        pyStrOfOpt none) with e | data
    · simp [http_trigger, loadConfig, h1, h2, hgs, hfe]
    · rcases hsv : saveToStorage w kv1 containerName
          ((w.env "ADLS_PATH_PREFIX").getD "flights") data with ⟨r, effs, kv2⟩
      rcases r with e | okBody
      · simp [http_trigger, loadConfig, h1, h2, hgs, hfe, hsv]
      · simp [http_trigger, loadConfig, h1, h2, hgs, hfe, hsv]
  rw [hurl] at hhead
  exact hhead

/-- Witness for C2 (amended): the scenario world with the secret store
down. -/
theorem secret_absent_url_none_witness :
    (http_trigger worldNoSecret).2.head? =
      some (.httpGet "https://api.example.com/flights?key=None") :=
  secret_absent_url_none worldNoSecret "https://api.example.com"
    "test-container" rfl rfl rfl

/-- Claim C10: for every `ADLS_PATH_PREFIX` value, the blob name written
(or attempted — the trace is the same whether the upload succeeds or
fails) equals the prefix with all trailing '/' characters stripped,
followed by "/", the timestamp and ".json"; and the stripped prefix never
ends in '/', so a trailing slash in the prefix never yields a double slash
at the junction. -/
theorem blob_name_rstrips_pfx (w : World)
    (apiUrl containerName acct pfx data : String)
    (h1 : w.env "API_URL" = some apiUrl)
    (h2 : w.env "ADLS_FILE_SYSTEM" = some containerName)
    (hp : w.env "ADLS_PATH_PREFIX" = some pfx)
    (hacct : w.env "STORAGE_ACCOUNT_NAME" = some acct)
    (hf : w.fetch (apiUrl ++ "/flights" ++ "?key=" ++
        pyStrOfOpt (get_secret w.env w.vault w.kv "api-key").1) = .ok data) :
    (http_trigger w).2 =
      [.httpGet (apiUrl ++ "/flights" ++ "?key=" ++
         pyStrOfOpt (get_secret w.env w.vault w.kv "api-key").1),
       .blobWrite ("https://" ++ acct ++ ".blob.core.windows.net")
         containerName
         (pyRstripSlash pfx ++ "/" ++ strftimeTs w.now ++ ".json") data] ∧
    ∀ c, (pyRstripSlash pfx).data.getLast? = some c → c ≠ '/' := by
  constructor
  · rcases hgs : get_secret w.env w.vault w.kv "api-key" with ⟨akey, kv1⟩
    rw [hgs] at hf
    rcases hgc : get_credential kv1 with ⟨cred, kvc⟩
    rcases hup : w.upload containerName
        (pyRstripSlash pfx ++ "/" ++ strftimeTs w.now ++ ".json") data
      with e | u
    · simp [http_trigger, loadConfig, saveToStorage,
        get_blob_service_client, h1, h2, hp, hacct, hgs, hf, hgc, hup]
    · simp [http_trigger, loadConfig, saveToStorage,
        get_blob_service_client, h1, h2, hp, hacct, hgs, hf, hgc, hup]
  · intro c hc
    have hdata : (pyRstripSlash pfx).data =
        (pfx.data.reverse.dropWhile (fun ch => ch == '/')).reverse := rfl
    rw [hdata, List.getLast?_reverse] at hc
    have := head?_dropWhile_not (fun ch => ch == '/') pfx.data.reverse c hc
    simpa using this

/-- Witness for C10: the scenario world with `ADLS_PATH_PREFIX` set to
"flights/": the written blob name is "flights/20231110T120000Z.json". -/
theorem blob_name_rstrips_pfx_witness :
    (http_trigger worldPfxSlash).2 =
      [.httpGet "https://api.example.com/flights?key=test-api-key",
       .blobWrite "https://teststorage.blob.core.windows.net"
         "test-container" "flights/20231110T120000Z.json"
         payloadScenario] ∧
    ∀ c, (pyRstripSlash "flights/").data.getLast? = some c → c ≠ '/' :=
  blob_name_rstrips_pfx worldPfxSlash "https://api.example.com"
    "test-container" "teststorage" "flights/" payloadScenario
    rfl rfl rfl rfl rfl

end FunctionApp
